import Mathlib

/-!
Verification of the client-side interaction core of the Dhandho dashboard:
the API boundary module (`api`) and the `Dashboard` component's state and
event handlers (tab selection, resource loaders, the per-company processing
workflow, the chat session, and the toast notification slot).

The embedding follows the JavaScript source: each `fetch`-based API
operation is a total function over an explicit model of the network
outcome (transport rejection, HTTP response with an `ok` flag, and a JSON
body that may itself fail to parse or carry a null/absent field), and each
React event handler is a function from the dashboard state (plus the
network outcome its API call will see) to the next dashboard state.
-/

/-- Outcome of one `fetch` call as observed by the `try` block around it:
either the promise chain rejects with an error message (transport failure,
or `response.json()` throwing), or an HTTP response arrives carrying its
`ok` flag and a parsed JSON body of shape `β`. A body that fails to parse
is `Except.error`; a well-parsed body is `Except.ok`. -/
inductive NetOutcome (β : Type) where
  | reject (msg : String)
  | reply (ok : Bool) (json : Except String β)
deriving Repr

/-- One row of the upcoming-results feed, as consumed by the calendar tab. -/
structure ResultListItem where
  company_name : String
  company_symbol : String
  sector : Option String
  result_date : String
deriving Repr, DecidableEq

/-- Metrics block of an analyzed result (numeric fields may be absent). -/
structure Metrics where
  revenue : Option Int
  profit_after_tax : Option Int
  eps : Option Int
  yoy_growth : Option Int
  qoq_growth : Option Int
deriving Repr, DecidableEq

/-- One analyzed-result card shown on the latest tab. -/
structure AnalyzedResult where
  company_name : String
  analyzed_at : String
  metrics : Metrics
  insights : Option String
deriving Repr, DecidableEq

/-- Body of a successful `/chat` response: the `response` field may be
absent (`none`) or present; an empty string models a present-but-falsy
value, since the source tests it with `data.response || ...`. -/
structure ChatBody where
  response : Option String
deriving Repr, DecidableEq

/-- Tagged outcome of `api.triggerResultProcessing`: the source wraps the
parsed payload as `{status: 'success', data}` or returns
`{status: 'error', error: message}`. -/
inductive ProcessResult where
  | success (data : AnalyzedResult)
  | error (msg : String)
deriving Repr, DecidableEq

namespace api

/-- `api.fetchUpcomingResults`: GET `/upcoming-results`; non-ok status
throws into the local catch, a parse failure or rejection is caught, and a
null body falls back through `data || []`. Every failure path returns the
empty list. -/
def fetchUpcomingResults (net : NetOutcome (Option (List ResultListItem))) :
    List ResultListItem :=
  match net with
  | .reject _ => []
  | .reply ok json =>
    if ok then
      match json with
      | .error _ => []
      | .ok data => data.getD []
    else []

/-- `api.fetchLatestResults`: GET `/latest-results`, same fallback contract
as `fetchUpcomingResults`. -/
def fetchLatestResults (net : NetOutcome (Option (List AnalyzedResult))) :
    List AnalyzedResult :=
  match net with
  | .reject _ => []
  | .reply ok json =>
    if ok then
      match json with
      | .error _ => []
      | .ok data => data.getD []
    else []

/-- The fixed transport-failure string returned by `api.sendChatMessage`. -/
def chatConnectError : String :=
  "Error connecting to server. Please check if the backend is running."

/-- The fixed fallback returned when a `/chat` reply lacks a truthy
`response` field. -/
def chatEmptyFallback : String := "Sorry, I could not process that."

/-- `api.sendChatMessage`: POST `/chat` with `{question}`; on any caught
failure returns `chatConnectError`; on an ok reply returns
`data.response || chatEmptyFallback`. -/
def sendChatMessage (net : NetOutcome ChatBody) : String :=
  match net with
  | .reject _ => chatConnectError
  | .reply ok json =>
    if ok then
      match json with
      | .error _ => chatConnectError
      | .ok body =>
        match body.response with
        | none => chatEmptyFallback
        | some s => if s = "" then chatEmptyFallback else s
    else chatConnectError

/-- `api.triggerResultProcessing`: POST `/analyze/{ticker}`; a non-ok
status throws `Error('Failed to process result')` into the catch, and
every caught error is converted to `{status: 'error', error: message}`;
an ok parsed reply is wrapped as `{status: 'success', data}`. -/
def triggerResultProcessing (net : NetOutcome AnalyzedResult) :
    ProcessResult :=
  match net with
  | .reject msg => .error msg
  | .reply ok json =>
    if ok then
      match json with
      | .error msg => .error msg
      | .ok data => .success data
    else .error "Failed to process result"

end api

/-- The three tab identifiers of the dashboard. -/
inductive Tab where
  | calendar
  | latest
  | chat
deriving Repr, DecidableEq

/-- Role of a chat turn (`type` field of a message object). -/
inductive MsgType where
  | user
  | bot
deriving Repr, DecidableEq

/-- One entry of the chat transcript. -/
structure ChatMsg where
  type : MsgType
  text : String
deriving Repr, DecidableEq

/-- The text of the optimistic placeholder turn appended by
`handleChatSubmit` before the network call. -/
def thinkingText : String := "🤔 Analyzing..."

/-- The initial greeting bot message the transcript starts with. -/
def greetingMsg : ChatMsg :=
  ⟨.bot, "Hey! Ask me anything about recent results. Try: \"How did Wipro perform?\""⟩

/-- The `Dashboard` component's state: one field per `useState` slot. -/
structure DashState where
  activeTab : Tab
  upcomingResults : List ResultListItem
  latestResults : List AnalyzedResult
  chatInput : String
  chatMessages : List ChatMsg
  loading : Bool
  error : Option String
  processingCompany : Option String
  notification : Option String
deriving Repr

/-- The initial dashboard state, from the `useState` initializers. -/
def initState : DashState :=
  { activeTab := .calendar
    upcomingResults := []
    latestResults := []
    chatInput := ""
    chatMessages := [greetingMsg]
    loading := false
    error := none
    processingCompany := none
    notification := none }

/-- `setActiveTab` as invoked by a tab button: sets the active tab
unconditionally. -/
def selectTab (t : Tab) (s : DashState) : DashState := { s with activeTab := t }

/-- Which loader the tab-change effect invokes when the active tab becomes
`t` (the `useEffect` keyed on `activeTab`): `calendar` and `latest` each
trigger their loader, `chat` triggers none. -/
inductive LoadTarget where
  | upcoming
  | latest
deriving Repr, DecidableEq

/-- Body of the `useEffect` keyed on `activeTab`. -/
def tabLoadEffect (t : Tab) : Option LoadTarget :=
  match t with
  | .calendar => some .upcoming
  | .latest => some .latest
  | .chat => none

/-- Loads emitted by a sequence of tab selections starting from active tab
`cur`: React re-runs the effect exactly when the selected value differs
from the current one, every such entry included (not only first visits). -/
def tabTrace (cur : Tab) : List Tab → List LoadTarget
  | [] => []
  | t :: rest =>
    (if t ≠ cur then (tabLoadEffect t).toList else []) ++ tabTrace t rest

/-- `loadUpcomingResults`, with the awaited result of the bound fetch made
explicit (`Except.error` models a rejection caught by the handler's own
`catch`): set `loading`, clear `error`, store the fetched list wholesale on
success or set the fixed error message on failure, then clear `loading`. -/
def loadUpcomingResults (fetchRes : Except String (List ResultListItem))
    (s : DashState) : DashState :=
  let s1 := { s with loading := true, error := none }
  let s2 :=
    match fetchRes with
    | .ok data => { s1 with upcomingResults := data }
    | .error _ => { s1 with error := some "Failed to load upcoming results" }
  { s2 with loading := false }

/-- `loadLatestResults`, same shape as `loadUpcomingResults`. -/
def loadLatestResults (fetchRes : Except String (List AnalyzedResult))
    (s : DashState) : DashState :=
  let s1 := { s with loading := true, error := none }
  let s2 :=
    match fetchRes with
    | .ok data => { s1 with latestResults := data }
    | .error _ => { s1 with error := some "Failed to load latest results" }
  { s2 with loading := false }

/-- First half of `handleProcessResult`, up to the `await`: set the
processing slot to the clicked company. -/
def processStart (company : String) (s : DashState) : DashState :=
  { s with processingCompany := some company }

/-- Second half of `handleProcessResult`, after `api.triggerResultProcessing`
resolves: on success set the success toast and switch to the latest tab; on
error set the error toast; in both branches clear the processing slot. -/
def processFinish (company : String) (result : ProcessResult)
    (s : DashState) : DashState :=
  match result with
  | .success _ =>
    { s with
      notification := some ("✅ Successfully processed " ++ company ++ " results!")
      activeTab := .latest
      processingCompany := none }
  | .error e =>
    { s with
      notification := some ("❌ Error processing " ++ company ++ ": " ++ e)
      processingCompany := none }

/-- `handleProcessResult(company, ticker)` run to completion against the
network outcome `net` of the POST to `/analyze/{ticker}`: set the slot,
call `api.triggerResultProcessing`, then apply the tagged result. -/
def handleProcessResult (company : String) (net : NetOutcome AnalyzedResult)
    (s : DashState) : DashState :=
  processFinish company (api.triggerResultProcessing net) (processStart company s)

/-- Executable model of JavaScript's `String.prototype.trim`: drop
whitespace from both ends of the character sequence. -/
def jsTrim (s : String) : String :=
  ⟨((s.data.dropWhile Char.isWhitespace).reverse.dropWhile
      Char.isWhitespace).reverse⟩

/-- Synchronous prefix of `handleChatSubmit`: reject a blank input,
otherwise append the user turn, clear the input, and append the thinking
placeholder — all before the network call. -/
def chatSubmitSync (s : DashState) : DashState :=
  if jsTrim s.chatInput = "" then s
  else
    { s with
      chatMessages := s.chatMessages ++ [⟨.user, s.chatInput⟩, ⟨.bot, thinkingText⟩]
      chatInput := "" }

/-- Resolution step of `handleChatSubmit`: `prev.slice(0, -1)` then append
the bot answer — replace the trailing placeholder in place. -/
def chatResolve (answer : String) (s : DashState) : DashState :=
  { s with chatMessages := s.chatMessages.dropLast ++ [⟨.bot, answer⟩] }

/-- `handleChatSubmit` run to completion against the network outcome `net`
of the POST to `/chat`: blank input is a no-op; otherwise the synchronous
prefix runs, then `api.sendChatMessage` resolves and its answer replaces
the placeholder. -/
def handleChatSubmit (net : NetOutcome ChatBody) (s : DashState) : DashState :=
  if jsTrim s.chatInput = "" then s
  else chatResolve (api.sendChatMessage net) (chatSubmitSync s)

/-- `setChatInput` as fired by typing into the chat input field. -/
def setChatInput (q : String) (s : DashState) : DashState :=
  { s with chatInput := q }

/-- A sequence of chat submits with no concurrency: for each pair
`(q, net)`, the user types `q` and submits, and the submit's network call
resolves (with outcome `net`) before the next one starts. -/
def runSubmits (s : DashState) : List (String × NetOutcome ChatBody) → DashState
  | [] => s
  | (q, net) :: rest => runSubmits (handleChatSubmit net (setChatInput q s)) rest

/-- The toast slot together with its auto-dismiss timer: `notification` is
the `useState` slot, `timerExpiry` the instant at which the currently
pending `setTimeout` (at most one, because the effect cleanup clears the
previous one) will fire, if any. -/
structure ToastState where
  notification : Option String
  timerExpiry : Option Nat
deriving Repr, DecidableEq

/-- The auto-dismiss delay (3000 ms). -/
def toastDelay : Nat := 3000

/-- Showing a toast at instant `now`: `setNotification(m)` plus the re-run
of the `useEffect` keyed on `notification`, whose cleanup clears the old
timer and which starts a fresh 3000 ms countdown. Setting a value equal to
the current one bails out (React skips the re-render), so the effect does
not re-run and the pending timer is left untouched. -/
def toastShow (m : String) (now : Nat) (s : ToastState) : ToastState :=
  if s.notification = some m then s
  else { notification := some m, timerExpiry := some (now + toastDelay) }

/-- A timer firing at instant `now`: only the pending timer (the one whose
expiry is `now`) is still alive — a cancelled timer never fires. When it
fires, `setNotification(null)` runs and the effect re-run schedules
nothing. -/
def toastExpire (now : Nat) (s : ToastState) : ToastState :=
  if s.timerExpiry = some now then { notification := none, timerExpiry := none }
  else s

/-- Replacing the trailing element after the synchronous submit prefix:
the transcript becomes the prior transcript, then the user turn, then the
answer in the position the placeholder occupied. -/
lemma chatResolve_chatSubmitSync (s : DashState) (h : ¬ jsTrim s.chatInput = "")
    (a : String) :
    (chatResolve a (chatSubmitSync s)).chatMessages =
      s.chatMessages ++ [⟨.user, s.chatInput⟩, ⟨.bot, a⟩] := by
  have key : ∀ (l : List ChatMsg) (u t b : ChatMsg),
      (l ++ [u, t]).dropLast ++ [b] = l ++ [u, b] := by
    intro l u t b
    rw [show l ++ [u, t] = (l ++ [u]) ++ [t] by simp, List.dropLast_concat,
      List.append_assoc]
    rfl
  simp only [chatResolve, chatSubmitSync, if_neg h]
  exact key _ _ _ _

/-- Transcript after one completed non-blank submit. -/
lemma handleChatSubmit_msgs (net : NetOutcome ChatBody) (s : DashState)
    (h : ¬ jsTrim s.chatInput = "") :
    (handleChatSubmit net s).chatMessages =
      s.chatMessages ++ [⟨.user, s.chatInput⟩, ⟨.bot, api.sendChatMessage net⟩] := by
  rw [handleChatSubmit, if_neg h]
  exact chatResolve_chatSubmitSync s h _

/-- Transcript length after a sequence of resolved non-blank submits. -/
lemma runSubmits_length (l : List (String × NetOutcome ChatBody)) (s : DashState)
    (h : ∀ p ∈ l, ¬ jsTrim p.1 = "") :
    (runSubmits s l).chatMessages.length = s.chatMessages.length + 2 * l.length := by
  induction l generalizing s with
  | nil => simp [runSubmits]
  | cons p rest ih =>
    obtain ⟨q, net⟩ := p
    have hq : ¬ jsTrim q = "" := h ⟨q, net⟩ (List.mem_cons_self _ _)
    rw [runSubmits, ih _ (fun p hp => h p (List.mem_cons_of_mem _ hp)),
      handleChatSubmit_msgs net (setChatInput q s) hq]
    simp [setChatInput]
    ring

/-- C3: the four `api` operations are total functions (nothing is raised to
the caller), and on every failure mode — transport rejection, non-ok
status, or unparseable body — the two list fetchers return `[]`,
`sendChatMessage` returns the fixed connection-error string, and
`triggerResultProcessing` returns a tagged error result. -/
theorem api_never_throws_safe_defaults :
    (∀ msg, api.fetchUpcomingResults (.reject msg) = [] ∧
      api.fetchLatestResults (.reject msg) = [] ∧
      api.sendChatMessage (.reject msg) = api.chatConnectError ∧
      api.triggerResultProcessing (.reject msg) = .error msg) ∧
    (∀ jsonU jsonL jsonC jsonP,
      api.fetchUpcomingResults (.reply false jsonU) = [] ∧
      api.fetchLatestResults (.reply false jsonL) = [] ∧
      api.sendChatMessage (.reply false jsonC) = api.chatConnectError ∧
      api.triggerResultProcessing (.reply false jsonP) =
        .error "Failed to process result") ∧
    (∀ msg, api.fetchUpcomingResults (.reply true (.error msg)) = [] ∧
      api.fetchLatestResults (.reply true (.error msg)) = [] ∧
      api.sendChatMessage (.reply true (.error msg)) = api.chatConnectError ∧
      api.triggerResultProcessing (.reply true (.error msg)) = .error msg) := by
  refine ⟨fun msg => ⟨rfl, rfl, rfl, rfl⟩,
    fun jsonU jsonL jsonC jsonP => ⟨rfl, rfl, rfl, rfl⟩,
    fun msg => ⟨rfl, rfl, rfl, rfl⟩⟩

/-- C10: an ok `/chat` reply whose `response` field is missing or falsy
yields the fixed string "Sorry, I could not process that.", which is a
different string from the transport-failure message, so the two failure
shapes are distinguishable from the returned value. -/
theorem sendChatMessage_malformed_ok_distinct :
    api.sendChatMessage (.reply true (.ok ⟨none⟩)) = api.chatEmptyFallback ∧
    api.sendChatMessage (.reply true (.ok ⟨some ""⟩)) = api.chatEmptyFallback ∧
    (∀ msg, api.sendChatMessage (.reject msg) = api.chatConnectError) ∧
    api.chatEmptyFallback ≠ api.chatConnectError := by
  refine ⟨rfl, rfl, fun msg => rfl, by decide⟩

/-- C1: `handleProcessResult(company, ticker)` first sets the processing
slot to the company, then calls `api.triggerResultProcessing`; on a
success result it sets the success toast, clears the slot and switches the
active tab to `latest`; on an error result it sets the error toast
(embedding the error detail), clears the slot, and leaves the active tab
unchanged. -/
theorem handleProcessResult_spec (company : String)
    (net : NetOutcome AnalyzedResult) (s : DashState) :
    (processStart company s).processingCompany = some company ∧
    handleProcessResult company net s =
      processFinish company (api.triggerResultProcessing net)
        (processStart company s) ∧
    (∀ d, api.triggerResultProcessing net = .success d →
      (handleProcessResult company net s).notification =
        some ("✅ Successfully processed " ++ company ++ " results!") ∧
      (handleProcessResult company net s).processingCompany = none ∧
      (handleProcessResult company net s).activeTab = .latest) ∧
    (∀ e, api.triggerResultProcessing net = .error e →
      (handleProcessResult company net s).notification =
        some ("❌ Error processing " ++ company ++ ": " ++ e) ∧
      (handleProcessResult company net s).processingCompany = none ∧
      (handleProcessResult company net s).activeTab = s.activeTab) := by
  refine ⟨rfl, rfl, ?_, ?_⟩
  · intro d hd
    simp [handleProcessResult, processFinish, hd, processStart]
  · intro e he
    simp [handleProcessResult, processFinish, he, processStart]

/-- Witness for C1: a concrete rejected analysis request for Wipro yields
the error toast with the error detail and leaves the tab on `calendar`. -/
theorem handleProcessResult_spec_witness :
    (handleProcessResult "Wipro" (.reject "timeout") initState).notification =
      some ("❌ Error processing " ++ "Wipro" ++ ": " ++ "timeout") ∧
    (handleProcessResult "Wipro" (.reject "timeout") initState).activeTab =
      Tab.calendar :=
  ⟨((handleProcessResult_spec "Wipro" (.reject "timeout") initState).2.2.2
      "timeout" rfl).1,
   ((handleProcessResult_spec "Wipro" (.reject "timeout") initState).2.2.2
      "timeout" rfl).2.2⟩

/-- C4: the processing slot is a single `Option String` cell, so it holds
at most one company at any time; starting `run(X)` sets it to `X`, and
starting `run(Y)` while `X` is still outstanding overwrites it to `Y`
(overwrite, not mutual exclusion); both outstanding network results are
still applied when they arrive, each posting its own toast. -/
theorem processing_slot_single_flight (s : DashState) (X Y : String)
    (netX netY : NetOutcome AnalyzedResult) :
    (∀ st : DashState,
      st.processingCompany = none ∨ ∃ c, st.processingCompany = some c) ∧
    (processStart X s).processingCompany = some X ∧
    (processStart Y (processStart X s)).processingCompany = some Y ∧
    ((processFinish Y (api.triggerResultProcessing netY)
        (processFinish X (api.triggerResultProcessing netX)
          (processStart Y (processStart X s)))).notification =
      some (match api.triggerResultProcessing netY with
        | .success _ => "✅ Successfully processed " ++ Y ++ " results!"
        | .error e => "❌ Error processing " ++ Y ++ ": " ++ e) ∧
     (processFinish X (api.triggerResultProcessing netX)
        (processStart Y (processStart X s))).notification =
      some (match api.triggerResultProcessing netX with
        | .success _ => "✅ Successfully processed " ++ X ++ " results!"
        | .error e => "❌ Error processing " ++ X ++ ": " ++ e)) := by
  refine ⟨?_, rfl, rfl, ?_, ?_⟩
  · intro st
    cases hst : st.processingCompany with
    | none => exact Or.inl rfl
    | some c => exact Or.inr ⟨c, rfl⟩
  · cases api.triggerResultProcessing netY with
    | success d =>
      cases api.triggerResultProcessing netX with
      | success e => rfl
      | error e => rfl
    | error msg =>
      cases api.triggerResultProcessing netX with
      | success e => rfl
      | error e => rfl
  · cases api.triggerResultProcessing netX with
    | success d => rfl
    | error msg => rfl

/-- C5: both loaders replace the stored list wholesale with exactly the
value resolved by the bound fetch, with no merge with the prior list, and
on a rejected fetch set the fixed error message while leaving the stored
list unchanged; the handlers are total, so nothing propagates to the
caller. -/
theorem loaders_snapshot_and_error (s : DashState)
    (dataU : List ResultListItem) (dataL : List AnalyzedResult)
    (msgU msgL : String) :
    ((loadUpcomingResults (.ok dataU) s).upcomingResults = dataU ∧
     (loadUpcomingResults (.ok dataU) s).error = none ∧
     (loadUpcomingResults (.ok dataU) s).loading = false) ∧
    ((loadUpcomingResults (.error msgU) s).upcomingResults = s.upcomingResults ∧
     (loadUpcomingResults (.error msgU) s).error =
       some "Failed to load upcoming results" ∧
     (loadUpcomingResults (.error msgU) s).loading = false) ∧
    ((loadLatestResults (.ok dataL) s).latestResults = dataL ∧
     (loadLatestResults (.ok dataL) s).error = none ∧
     (loadLatestResults (.ok dataL) s).loading = false) ∧
    ((loadLatestResults (.error msgL) s).latestResults = s.latestResults ∧
     (loadLatestResults (.error msgL) s).error =
       some "Failed to load latest results" ∧
     (loadLatestResults (.error msgL) s).loading = false) :=
  ⟨⟨rfl, rfl, rfl⟩, ⟨rfl, rfl, rfl⟩, ⟨rfl, rfl, rfl⟩, ⟨rfl, rfl, rfl⟩⟩

/-- C6: when the `/chat` request fails (transport rejection or non-ok
status), `api.sendChatMessage` returns the fixed fallback string and the
submit's resolution step replaces the trailing thinking placeholder with
it, so the transcript ends with a displayable bot turn and the fallback is
not the placeholder text. -/
theorem chat_failure_placeholder_replaced (s : DashState) (msg : String)
    (json : Except String ChatBody) (h : ¬ jsTrim s.chatInput = "") :
    (handleChatSubmit (.reject msg) s).chatMessages =
      s.chatMessages ++ [⟨.user, s.chatInput⟩, ⟨.bot, api.chatConnectError⟩] ∧
    (handleChatSubmit (.reply false json) s).chatMessages =
      s.chatMessages ++ [⟨.user, s.chatInput⟩, ⟨.bot, api.chatConnectError⟩] ∧
    (handleChatSubmit (.reject msg) s).chatMessages.getLast? =
      some ⟨.bot, api.chatConnectError⟩ ∧
    api.chatConnectError ≠ thinkingText := by
  refine ⟨?_, ?_, ?_, by decide⟩
  · exact handleChatSubmit_msgs _ s h
  · exact handleChatSubmit_msgs _ s h
  · rw [handleChatSubmit_msgs _ s h]
    simp
    rfl

/-- Witness for C6: a concrete failed submit of "hi" from the initial
state ends with the fallback bot turn. -/
theorem chat_failure_placeholder_replaced_witness :
    (handleChatSubmit (.reject "down") (setChatInput "hi" initState)).chatMessages =
      initState.chatMessages ++
        [⟨.user, "hi"⟩, ⟨.bot, api.chatConnectError⟩] :=
  (chat_failure_placeholder_replaced (setChatInput "hi" initState) "down"
    (.error "") (by decide)).1

/-- After `toastShow m`, the slot holds `m` — also when the call bailed
out because `m` was already shown. -/
lemma toastShow_notification (m : String) (t : Nat) (s : ToastState) :
    (toastShow m t s).notification = some m := by
  rw [toastShow]
  split
  next h => exact h
  next => rfl

/-- Counterexample to C7 as stated: showing the same message again at
instant 5 (before the first expiry) is a same-value state update, so the
effect does not re-run — the old timer survives (expiry stays `0 + 3000`,
no fresh `5 + 3000` countdown starts) and the slot still clears at the
old instant. -/
theorem toast_same_message_counterexample :
    toastShow "A" 5 (toastShow "A" 0 ⟨none, none⟩) =
      toastShow "A" 0 ⟨none, none⟩ ∧
    (toastShow "A" 5 (toastShow "A" 0 ⟨none, none⟩)).timerExpiry =
      some (0 + toastDelay) ∧
    ¬ (toastShow "A" 5 (toastShow "A" 0 ⟨none, none⟩)).timerExpiry =
      some (5 + toastDelay) ∧
    toastExpire (0 + toastDelay) (toastShow "A" 5 (toastShow "A" 0 ⟨none, none⟩)) =
      ⟨none, none⟩ := by
  refine ⟨rfl, rfl, by decide, rfl⟩

/-- C7 amended: the toast is a single slot: showing `B` at `t2` while `A`
(shown at `t1`) is still pending, with `B` a different message than the
one displayed, leaves exactly the message `B` with the single pending
expiry `t2 + 3000`; the cancelled old timer's instant clears nothing and
the fresh timer's expiry clears the slot. Showing a message equal to the
currently displayed one is a no-op that leaves the original countdown
running. -/
theorem toast_replace_semantics (s : ToastState) (A B : String) (t1 t2 : Nat)
    (h0 : ¬ A = B) (h1 : t1 < t2) (h2 : t2 < t1 + toastDelay) :
    (toastShow B t2 (toastShow A t1 s)).notification = some B ∧
    (toastShow B t2 (toastShow A t1 s)).timerExpiry = some (t2 + toastDelay) ∧
    toastExpire (t1 + toastDelay) (toastShow B t2 (toastShow A t1 s)) =
      toastShow B t2 (toastShow A t1 s) ∧
    toastExpire (t2 + toastDelay) (toastShow B t2 (toastShow A t1 s)) =
      ⟨none, none⟩ ∧
    (∀ (m : String) (t : Nat) (st : ToastState), st.notification = some m →
      toastShow m t st = st) := by
  have hbail : ¬ (toastShow A t1 s).notification = some B := by
    rw [toastShow_notification]
    simp only [Option.some.injEq]
    exact h0
  have hsB : toastShow B t2 (toastShow A t1 s) =
      ⟨some B, some (t2 + toastDelay)⟩ := by
    rw [toastShow, if_neg hbail]
  refine ⟨?_, ?_, ?_, ?_, ?_⟩
  · rw [hsB]
  · rw [hsB]
  · rw [hsB, toastExpire, if_neg]
    simp only [Option.some.injEq]
    omega
  · rw [hsB, toastExpire,
      if_pos (show (ToastState.mk (some B) (some (t2 + toastDelay))).timerExpiry =
        some (t2 + toastDelay) from rfl)]
  · intro m t st hm
    rw [toastShow, if_pos hm]

/-- Witness for the amended C7: showing "A" at 0 then the distinct "B" at
5 replaces the message and the fresh timer clears the slot; re-showing the
displayed message is a no-op. -/
theorem toast_replace_semantics_witness :
    (toastShow "B" 5 (toastShow "A" 0 ⟨none, none⟩)).notification = some "B" ∧
    toastExpire (5 + toastDelay) (toastShow "B" 5 (toastShow "A" 0 ⟨none, none⟩)) =
      ⟨none, none⟩ ∧
    toastShow "A" 7 ⟨some "A", some toastDelay⟩ = ⟨some "A", some toastDelay⟩ :=
  ⟨(toast_replace_semantics ⟨none, none⟩ "A" "B" 0 5 (by decide) (by decide)
      (by decide)).1,
   (toast_replace_semantics ⟨none, none⟩ "A" "B" 0 5 (by decide) (by decide)
      (by decide)).2.2.2.1,
   (toast_replace_semantics ⟨none, none⟩ "A" "B" 0 5 (by decide) (by decide)
      (by decide)).2.2.2.2 "A" 7 ⟨some "A", some toastDelay⟩ rfl⟩

/-- C8: the tab state ranges over `{calendar, latest, chat}` with initial
value `calendar`; `selectTab` sets the active tab unconditionally; every
time the active tab becomes `calendar` or `latest` the corresponding load
fires (again on every re-entry, as the concrete trace shows), and becoming
`chat` fires none. -/
theorem tab_controller_spec :
    initState.activeTab = Tab.calendar ∧
    (∀ t s, (selectTab t s).activeTab = t) ∧
    tabLoadEffect .calendar = some .upcoming ∧
    tabLoadEffect .latest = some .latest ∧
    tabLoadEffect .chat = none ∧
    (∀ cur t rest, t ≠ cur →
      tabTrace cur (t :: rest) = (tabLoadEffect t).toList ++ tabTrace t rest) ∧
    tabTrace .calendar [.latest, .calendar, .latest, .chat] =
      [.latest, .upcoming, .latest] := by
  refine ⟨rfl, fun t s => rfl, rfl, rfl, rfl, ?_, rfl⟩
  intro cur t rest ht
  rw [tabTrace, if_pos ht]

/-- Witness for C8: re-entering `latest` from `calendar` emits its load in
front of the remaining trace. -/
theorem tab_controller_spec_witness :
    tabTrace .calendar [Tab.latest] =
      (tabLoadEffect .latest).toList ++ tabTrace .latest [] :=
  tab_controller_spec.2.2.2.2.2.1 .calendar .latest [] (by decide)

/-- C9: a blank submit is rejected as a no-op; a non-blank submit's
synchronous prefix appends the user turn and the thinking placeholder and
clears the input, and the whole handler is exactly that prefix followed by
the resolution of the network answer — so the placeholder is in the
transcript before the network call is issued. -/
theorem chat_submit_sync_before_net (s : DashState) :
    (jsTrim s.chatInput = "" → ∀ net, handleChatSubmit net s = s) ∧
    (¬ jsTrim s.chatInput = "" →
      (chatSubmitSync s).chatMessages =
        s.chatMessages ++ [⟨.user, s.chatInput⟩, ⟨.bot, thinkingText⟩] ∧
      (chatSubmitSync s).chatInput = "" ∧
      (chatSubmitSync s).chatMessages.getLast? = some ⟨.bot, thinkingText⟩ ∧
      ∀ net, handleChatSubmit net s =
        chatResolve (api.sendChatMessage net) (chatSubmitSync s)) := by
  constructor
  · intro hb net
    rw [handleChatSubmit, if_pos hb]
  · intro h
    refine ⟨?_, ?_, ?_, ?_⟩
    · rw [chatSubmitSync, if_neg h]
    · rw [chatSubmitSync, if_neg h]
    · rw [chatSubmitSync, if_neg h]
      simp
    · intro net
      rw [handleChatSubmit, if_neg h]

/-- Witness for C9: blank input "  " is a no-op, and the non-blank input
"hi" has the placeholder as the transcript's last element before the
network call. -/
theorem chat_submit_sync_before_net_witness :
    handleChatSubmit (.reject "x") (setChatInput "  " initState) =
      setChatInput "  " initState ∧
    (chatSubmitSync (setChatInput "hi" initState)).chatMessages.getLast? =
      some ⟨.bot, thinkingText⟩ :=
  ⟨(chat_submit_sync_before_net (setChatInput "  " initState)).1 (by decide)
      (.reject "x"),
   ((chat_submit_sync_before_net (setChatInput "hi" initState)).2
      (by decide)).2.2.1⟩

/-- Counterexample to C2 as stated: the transcript is initialized with one
greeting bot turn, so from the initial state a single resolved submit
leaves a transcript of length 3, not 2·1 = 2. -/
theorem chat_length_2N_counterexample :
    (runSubmits initState [("hi", .reject "x")]).chatMessages.length = 3 ∧
    ¬ (runSubmits initState [("hi", .reject "x")]).chatMessages.length =
      2 * 1 := by
  constructor
  · rfl
  · decide

/-- C2 amended: the transcript starts with one greeting turn, so after N
resolved non-blank submits with no concurrency its length is 2N + 1 (the
greeting plus one user/bot pair per submit); within each submit the
synchronous prefix leaves exactly the one outstanding placeholder at the
end of the transcript, and the submit's resolution replaces it in place
with the answer before the next submit starts. -/
theorem chat_transcript_length_amended
    (l : List (String × NetOutcome ChatBody))
    (h : ∀ p ∈ l, ¬ jsTrim p.1 = "") :
    (runSubmits initState l).chatMessages.length = 2 * l.length + 1 ∧
    (∀ s q net, ¬ jsTrim q = "" →
      (chatSubmitSync (setChatInput q s)).chatMessages =
        s.chatMessages ++ [⟨.user, q⟩, ⟨.bot, thinkingText⟩] ∧
      (handleChatSubmit net (setChatInput q s)).chatMessages =
        s.chatMessages ++ [⟨.user, q⟩, ⟨.bot, api.sendChatMessage net⟩]) := by
  constructor
  · rw [runSubmits_length l initState h]
    simp [initState]
    ring
  · intro s q net hq
    constructor
    · rw [chatSubmitSync,
        if_neg (show ¬ jsTrim (setChatInput q s).chatInput = "" from hq)]
      rfl
    · exact handleChatSubmit_msgs net (setChatInput q s) hq

/-- Witness for the amended C2: one resolved submit of "hi" gives length
2·1 + 1 = 3 and replaces its placeholder with the resolved answer. -/
theorem chat_transcript_length_amended_witness :
    (runSubmits initState [("hi", .reject "x")]).chatMessages.length =
      2 * 1 + 1 ∧
    (handleChatSubmit (.reject "x") (setChatInput "hi" initState)).chatMessages =
      initState.chatMessages ++
        [⟨.user, "hi"⟩, ⟨.bot, api.sendChatMessage (.reject "x")⟩] :=
  ⟨(chat_transcript_length_amended [("hi", .reject "x")] (by decide)).1,
   ((chat_transcript_length_amended [("hi", .reject "x")] (by decide)).2
      initState "hi" (.reject "x") (by decide)).2⟩
